import Mathlib

/-!
Verification of the GuardDuty triage handler
(src/modules/lambda_triage/lambda-src/triage.py).

The handler is embedded shallowly: the inbound event is a structured record
following the trigger shape `detail.id / detail.severity / detail.resource
(resourceType, instanceDetails.instanceId)`, with every field optional so that
the `dict.get` defaulting of the source is modelled by `Option.getD`.  The
process environment and the success / raise outcome of each external client
call are explicit parameters, and the handler returns the ordered list of
outbound API calls it attempted together with either the success payload or
the re-raised error.
-/

/-- Nested instance details of a finding resource (triage.py line 38-39);
the field is optional, mirroring `instance_details.get('instanceId')`. -/
structure InstanceDetails where
  instanceId : Option String
deriving Repr, DecidableEq

/-- The resource descriptor nested in the finding detail (triage.py line 36-39). -/
structure Resource where
  resourceType : Option String
  instanceDetails : Option InstanceDetails
deriving Repr, DecidableEq

/-- The finding detail (triage.py lines 16-18, 36). -/
structure Detail where
  id : Option String
  severity : Option Int
  resource : Option Resource
deriving Repr, DecidableEq

/-- One inbound event; `event.get('detail', \x7b\x7d)` is modelled by an
optional `detail` field. -/
structure Event where
  detail : Option Detail
deriving Repr, DecidableEq

/-- Default for `resource.get('instanceDetails', \x7b\x7d)`. -/
def InstanceDetails.empty : InstanceDetails := ⟨none⟩

/-- Default for `detail.get('resource', \x7b\x7d)`. -/
def Resource.empty : Resource := ⟨none, none⟩

/-- Default for `event.get('detail', \x7b\x7d)`. -/
def Detail.empty : Detail := ⟨none, none, none⟩

/-- JSON string escaping as done by `json.dumps` for the backslash and the
double quote (the only escapes relevant to the fields modelled here). -/
def jsonEscape (s : String) : String :=
  String.join (s.data.map fun c =>
    if c = '\\' then "\\\\" else if c = '"' then "\\\"" else String.singleton c)

/-- Serialized JSON string literal. -/
def jstr (s : String) : String := "\"" ++ jsonEscape s ++ "\""

/-- Serialized JSON object from already-serialized field values, using the
default `json.dumps` separators `, ` and `: `. -/
def objDumps (fields : List (String × String)) : String :=
  "\x7b" ++ String.intercalate ", " (fields.map fun kv => jstr kv.1 ++ ": " ++ kv.2) ++ "\x7d"

/-- `json.dumps` of the instance-details dict. -/
def InstanceDetails.dumps (d : InstanceDetails) : String :=
  objDumps (match d.instanceId with
    | some s => [("instanceId", jstr s)]
    | none => [])

/-- `json.dumps` of the resource dict. -/
def Resource.dumps (r : Resource) : String :=
  objDumps
    ((match r.resourceType with | some s => [("resourceType", jstr s)] | none => []) ++
     (match r.instanceDetails with | some d => [("instanceDetails", InstanceDetails.dumps d)] | none => []))

/-- `json.dumps` of the detail dict. -/
def Detail.dumps (d : Detail) : String :=
  objDumps
    ((match d.id with | some s => [("id", jstr s)] | none => []) ++
     (match d.severity with | some n => [("severity", toString n)] | none => []) ++
     (match d.resource with | some r => [("resource", Resource.dumps r)] | none => []))

/-- `json.dumps(event)`: serialization of the full inbound event. -/
def Event.dumps (e : Event) : String :=
  objDumps (match e.detail with | some d => [("detail", Detail.dumps d)] | none => [])

/-- The notification message dict built at triage.py lines 67-72: it has
exactly the four fields of this structure, in this order. -/
structure Message where
  finding_id : String
  severity : Int
  resource_type : Option String
  action : String
deriving Repr, DecidableEq

/-- `json.dumps(message)` for the notification body; an absent resource type
serializes as `null`, as `json.dumps` renders Python `None`. -/
def Message.dumps (m : Message) : String :=
  objDumps
    [("finding_id", jstr m.finding_id),
     ("severity", toString m.severity),
     ("resource_type", match m.resource_type with | some s => jstr s | none => "null"),
     ("action", jstr m.action)]

/-- One outbound API call with its full argument list; a call is recorded
when it is attempted, whether or not it then raises. -/
inductive Call where
  | s3PutObject (bucket key body contentType : String)
  | ec2CreateTags (resources : List String) (tags : List (String × String))
  | sfnStartExecution (stateMachineArn name input : String)
  | snsPublish (topicArn message subject : String)
deriving Repr, DecidableEq

/-- The exceptions the handler can re-raise: a missing environment variable
(`os.environ[...]` KeyError) or an external client call raising. -/
inductive Err where
  | keyError (envVar : String)
  | clientError (call : Call)
deriving Repr, DecidableEq

/-- The process environment: the three configuration variables the source
reads, each possibly absent. -/
structure Env where
  EVIDENCE_BUCKET : Option String
  STATE_MACHINE_ARN : Option String
  SNS_TOPIC_ARN : Option String
deriving Repr, DecidableEq

/-- Fault injection for the four external services: whether each call raises
when attempted. -/
structure Beh where
  s3Fails : Bool
  ec2Fails : Bool
  sfnFails : Bool
  snsFails : Bool
deriving Repr, DecidableEq

/-- Behaviour in which every external call succeeds. -/
def Beh.ok : Beh := ⟨false, false, false, false⟩

/-- The handler's return payload. -/
structure Response where
  statusCode : Nat
  body : String
deriving Repr, DecidableEq

/-- `detail = event.get('detail', \x7b\x7d)` (triage.py line 16). -/
def eventDetail (e : Event) : Detail := e.detail.getD Detail.empty

/-- `finding_id = detail.get('id', 'unknown')` (triage.py line 17). -/
def eventFindingId (e : Event) : String := (eventDetail e).id.getD "unknown"

/-- `severity = detail.get('severity', 0)` (triage.py line 18). -/
def eventSeverity (e : Event) : Int := (eventDetail e).severity.getD 0

/-- `resource = detail.get('resource', \x7b\x7d)` (triage.py line 36). -/
def eventResource (e : Event) : Resource := (eventDetail e).resource.getD Resource.empty

/-- `resource.get('instanceDetails', \x7b\x7d).get('instanceId')`
(triage.py lines 38-39). -/
def eventInstanceId (e : Event) : Option String :=
  ((eventResource e).instanceDetails.getD InstanceDetails.empty).instanceId

/-- Embedding of `finding_id.replace("/", "-")` (triage.py line 54): the
pattern is the single character `/`, so the replacement substitutes every
`/` character by `-`. -/
def replaceSlashes (s : String) : String :=
  String.mk (s.data.map fun c => if c = '/' then '-' else c)

/-- Continuation of the handler from triage.py line 52: read the workflow
identifier, start the execution, read the notification channel, publish, and
return the success payload; `calls` are the calls already attempted. -/
def triageFromSfn (env : Env) (beh : Beh) (event : Event)
    (finding_id : String) (severity : Int) (resource : Resource)
    (calls : List Call) : List Call × Except Err Response :=
  match env.STATE_MACHINE_ARN with
  | none => (calls, .error (.keyError "STATE_MACHINE_ARN"))
  | some state_machine_arn =>
    let execution_name := "IR-" ++ replaceSlashes finding_id
    let sfn_call := Call.sfnStartExecution state_machine_arn execution_name (Event.dumps event)
    if beh.sfnFails then (calls ++ [sfn_call], .error (.clientError sfn_call))
    else
      match env.SNS_TOPIC_ARN with
      | none => (calls ++ [sfn_call], .error (.keyError "SNS_TOPIC_ARN"))
      | some sns_topic_arn =>
        let message : Message :=
          ⟨finding_id, severity, resource.resourceType, "Triage completed, remediation initiated"⟩
        let sns_call := Call.snsPublish sns_topic_arn (Message.dumps message)
          ("GuardDuty Finding Triage: " ++ finding_id)
        if beh.snsFails then (calls ++ [sfn_call, sns_call], .error (.clientError sns_call))
        else
          (calls ++ [sfn_call, sns_call],
           .ok ⟨200, objDumps [("message", jstr "Triage completed successfully"),
                               ("finding_id", jstr finding_id)]⟩)

/-- Shallow embedding of `lambda_handler` (triage.py lines 5-91): field
extraction with defaulting, evidence write, conditional tagging, workflow
start, notification, success payload; the first raise aborts the remaining
steps and is re-raised.  The tagging guard `if instance_id:` at line 40 is
Python truthiness, so a missing id and a present empty-string id both skip
tagging.  Returns the ordered calls attempted and the result. -/
def lambda_handler (env : Env) (beh : Beh) (event : Event) :
    List Call × Except Err Response :=
  match env.EVIDENCE_BUCKET with
  | none => ([], .error (.keyError "EVIDENCE_BUCKET"))
  | some evidence_bucket =>
    let s3_key := "findings/" ++ eventFindingId event ++ ".json"
    let s3_call := Call.s3PutObject evidence_bucket s3_key (Event.dumps event) "application/json"
    if beh.s3Fails then ([s3_call], .error (.clientError s3_call))
    else
      if (eventResource event).resourceType = some "Instance" then
        match eventInstanceId event with
        | some instance_id =>
          if instance_id ≠ "" then
            let ec2_call := Call.ec2CreateTags [instance_id]
              [("GuardDutyFinding", eventFindingId event), ("Quarantined", "Pending")]
            if beh.ec2Fails then ([s3_call, ec2_call], .error (.clientError ec2_call))
            else triageFromSfn env beh event (eventFindingId event) (eventSeverity event)
              (eventResource event) [s3_call, ec2_call]
          else triageFromSfn env beh event (eventFindingId event) (eventSeverity event)
            (eventResource event) [s3_call]
        | none => triageFromSfn env beh event (eventFindingId event) (eventSeverity event)
            (eventResource event) [s3_call]
      else triageFromSfn env beh event (eventFindingId event) (eventSeverity event)
        (eventResource event) [s3_call]

/-- Recognizer for object-store writes in a trace. -/
def isS3Call : Call → Bool
  | .s3PutObject _ _ _ _ => true
  | _ => false

/-- Recognizer for tagging calls in a trace. -/
def isTagCall : Call → Bool
  | .ec2CreateTags _ _ => true
  | _ => false

/-- Recognizer for workflow-start calls in a trace. -/
def isSfnCall : Call → Bool
  | .sfnStartExecution _ _ _ => true
  | _ => false

/-- Recognizer for notification publishes in a trace. -/
def isSnsCall : Call → Bool
  | .snsPublish _ _ _ => true
  | _ => false

/-- The tagging calls the handler attempts for an event (triage.py lines
36-49): one call when the resource type is "Instance" and a truthy (present
and non-empty, per `if instance_id:` at line 40) instance id is present,
none otherwise. -/
def tagCallsOf (event : Event) : List Call :=
  if (eventResource event).resourceType = some "Instance" then
    match eventInstanceId event with
    | some instance_id =>
      if instance_id ≠ "" then
        [Call.ec2CreateTags [instance_id]
          [("GuardDutyFinding", eventFindingId event), ("Quarantined", "Pending")]]
      else []
    | none => []
  else []

/-- Concrete complete environment used in witnesses. -/
def envW : Env := ⟨some "evidence-bkt", some "arn-sm", some "arn-topic"⟩

/-- Concrete environment whose workflow identifier is absent. -/
def envMissingArn : Env := ⟨some "evidence-bkt", none, some "arn-topic"⟩

/-- Concrete event with an Instance resource carrying an instance id. -/
def evInst : Event := ⟨some ⟨some "f-1", some 8, some ⟨some "Instance", some ⟨some "i-0abc"⟩⟩⟩⟩

/-- Concrete event whose resource type is "Instance" but with no instance id. -/
def evNoIid : Event := ⟨some ⟨some "f-3", some 7, some ⟨some "Instance", none⟩⟩⟩

/-- Concrete event whose finding id contains a slash. -/
def evSlash : Event := ⟨some ⟨some "abc/123", some 5, none⟩⟩

/-- Concrete event whose detail carries none of the optional fields. -/
def evEmpty : Event := ⟨some ⟨none, none, none⟩⟩

lemma triageFromSfn_trace (env : Env) (beh : Beh) (event : Event)
    (fid : String) (sev : Int) (r : Resource) (calls : List Call) :
    ∃ extra : List Call,
      (triageFromSfn env beh event fid sev r calls).1 = calls ++ extra ∧
      extra.filter isTagCall = [] ∧ extra.filter isS3Call = [] := by
  unfold triageFromSfn
  cases harn : env.STATE_MACHINE_ARN with
  | none => exact ⟨[], by simp, rfl, rfl⟩
  | some arn =>
    cases hsfn : beh.sfnFails with
    | true => exact ⟨_, rfl, rfl, rfl⟩
    | false =>
      cases htop : env.SNS_TOPIC_ARN with
      | none => exact ⟨_, rfl, rfl, rfl⟩
      | some topic =>
        cases hsns : beh.snsFails with
        | true => exact ⟨_, rfl, rfl, rfl⟩
        | false => exact ⟨_, rfl, rfl, rfl⟩

lemma lambda_handler_ok_run (env : Env) (event : Event) (b arn topic : String)
    (hb : env.EVIDENCE_BUCKET = some b)
    (ha : env.STATE_MACHINE_ARN = some arn)
    (ht : env.SNS_TOPIC_ARN = some topic) :
    lambda_handler env Beh.ok event =
      (Call.s3PutObject b ("findings/" ++ eventFindingId event ++ ".json")
          (Event.dumps event) "application/json"
        :: tagCallsOf event ++
        [Call.sfnStartExecution arn ("IR-" ++ replaceSlashes (eventFindingId event))
           (Event.dumps event),
         Call.snsPublish topic
           (Message.dumps ⟨eventFindingId event, eventSeverity event,
             (eventResource event).resourceType, "Triage completed, remediation initiated"⟩)
           ("GuardDuty Finding Triage: " ++ eventFindingId event)],
       .ok ⟨200, objDumps [("message", jstr "Triage completed successfully"),
                           ("finding_id", jstr (eventFindingId event))]⟩) := by
  unfold lambda_handler triageFromSfn tagCallsOf
  rw [hb, ha, ht]
  simp only [Beh.ok]
  by_cases hrt : (eventResource event).resourceType = some "Instance"
  · simp only [hrt, if_true]
    cases hiid : eventInstanceId event with
    | none => simp
    | some iid => by_cases hne : iid = "" <;> simp [hne]
  · simp only [hrt, if_false]
    simp

lemma tagCallsOf_filter_isTagCall (event : Event) :
    (tagCallsOf event).filter isTagCall = tagCallsOf event := by
  unfold tagCallsOf
  by_cases hrt : (eventResource event).resourceType = some "Instance"
  · simp only [hrt, if_true]
    cases eventInstanceId event with
    | none => rfl
    | some iid => by_cases hne : iid = "" <;> simp [hne, isTagCall, List.filter]
  · simp [hrt]

lemma tagCallsOf_filter_isSfnCall (event : Event) :
    (tagCallsOf event).filter isSfnCall = [] := by
  unfold tagCallsOf
  by_cases hrt : (eventResource event).resourceType = some "Instance"
  · simp only [hrt, if_true]
    cases eventInstanceId event with
    | none => rfl
    | some iid => by_cases hne : iid = "" <;> simp [hne, isSfnCall, List.filter]
  · simp [hrt]

lemma tagCallsOf_filter_isSnsCall (event : Event) :
    (tagCallsOf event).filter isSnsCall = [] := by
  unfold tagCallsOf
  by_cases hrt : (eventResource event).resourceType = some "Instance"
  · simp only [hrt, if_true]
    cases eventInstanceId event with
    | none => rfl
    | some iid => by_cases hne : iid = "" <;> simp [hne, isSnsCall, List.filter]
  · simp [hrt]

lemma lambda_handler_tagFilter (env : Env) (beh : Beh) (event : Event) (b : String)
    (hb : env.EVIDENCE_BUCKET = some b) (hs3 : beh.s3Fails = false) :
    ((lambda_handler env beh event).1).filter isTagCall = tagCallsOf event := by
  unfold lambda_handler
  rw [hb]
  simp only [hs3, Bool.false_eq_true, if_false]
  by_cases hrt : (eventResource event).resourceType = some "Instance"
  · simp only [hrt, if_true]
    cases hiid : eventInstanceId event with
    | none =>
      obtain ⟨extra, h1, h2, _⟩ := triageFromSfn_trace env beh event
        (eventFindingId event) (eventSeverity event) (eventResource event)
        [Call.s3PutObject b ("findings/" ++ eventFindingId event ++ ".json")
          (Event.dumps event) "application/json"]
      rw [h1, List.filter_append, h2]
      simp [isTagCall, tagCallsOf, hrt, hiid, List.filter]
    | some iid =>
      dsimp only
      by_cases hne : iid = ""
      · rw [if_neg (by simp [hne])]
        obtain ⟨extra, h1, h2, _⟩ := triageFromSfn_trace env beh event
          (eventFindingId event) (eventSeverity event) (eventResource event)
          [Call.s3PutObject b ("findings/" ++ eventFindingId event ++ ".json")
            (Event.dumps event) "application/json"]
        rw [h1, List.filter_append, h2]
        simp [isTagCall, tagCallsOf, hrt, hiid, hne, List.filter]
      · rw [if_pos hne]
        cases hec2 : beh.ec2Fails with
        | true =>
          simp only [if_true]
          simp [isTagCall, tagCallsOf, hrt, hiid, hne, List.filter]
        | false =>
          simp only [Bool.false_eq_true, if_false]
          obtain ⟨extra, h1, h2, _⟩ := triageFromSfn_trace env beh event
            (eventFindingId event) (eventSeverity event) (eventResource event)
            [Call.s3PutObject b ("findings/" ++ eventFindingId event ++ ".json")
              (Event.dumps event) "application/json",
             Call.ec2CreateTags [iid]
              [("GuardDutyFinding", eventFindingId event), ("Quarantined", "Pending")]]
          rw [h1, List.filter_append, h2]
          simp [isTagCall, tagCallsOf, hrt, hiid, hne, List.filter]
  · simp only [hrt, if_false]
    obtain ⟨extra, h1, h2, _⟩ := triageFromSfn_trace env beh event
      (eventFindingId event) (eventSeverity event) (eventResource event)
      [Call.s3PutObject b ("findings/" ++ eventFindingId event ++ ".json")
        (Event.dumps event) "application/json"]
    rw [h1, List.filter_append, h2]
    simp [isTagCall, tagCallsOf, hrt, List.filter]

lemma lambda_handler_tagFilter_nil_of_not_instance (env : Env) (beh : Beh) (event : Event)
    (hrt : (eventResource event).resourceType ≠ some "Instance") :
    ((lambda_handler env beh event).1).filter isTagCall = [] := by
  unfold lambda_handler
  cases hb : env.EVIDENCE_BUCKET with
  | none => rfl
  | some b =>
    cases hs3 : beh.s3Fails with
    | true => rfl
    | false =>
      simp only [Bool.false_eq_true, if_false, hrt, if_false]
      obtain ⟨extra, h1, h2, _⟩ := triageFromSfn_trace env beh event
        (eventFindingId event) (eventSeverity event) (eventResource event)
        [Call.s3PutObject b ("findings/" ++ eventFindingId event ++ ".json")
          (Event.dumps event) "application/json"]
      rw [h1, List.filter_append, h2]
      simp [isTagCall, List.filter]

lemma lambda_handler_head (env : Env) (beh : Beh) (event : Event) (b : String)
    (hb : env.EVIDENCE_BUCKET = some b) :
    ((lambda_handler env beh event).1).head? =
      some (Call.s3PutObject b ("findings/" ++ eventFindingId event ++ ".json")
        (Event.dumps event) "application/json") := by
  unfold lambda_handler
  rw [hb]
  cases hs3 : beh.s3Fails with
  | true => rfl
  | false =>
    simp only [Bool.false_eq_true, if_false]
    by_cases hrt : (eventResource event).resourceType = some "Instance"
    · simp only [hrt, if_true]
      cases hiid : eventInstanceId event with
      | none =>
        obtain ⟨extra, h1, _, _⟩ := triageFromSfn_trace env beh event
          (eventFindingId event) (eventSeverity event) (eventResource event)
          [Call.s3PutObject b ("findings/" ++ eventFindingId event ++ ".json")
            (Event.dumps event) "application/json"]
        rw [h1]
        rfl
      | some iid =>
        dsimp only
        by_cases hne : iid = ""
        · rw [if_neg (by simp [hne])]
          obtain ⟨extra, h1, _, _⟩ := triageFromSfn_trace env beh event
            (eventFindingId event) (eventSeverity event) (eventResource event)
            [Call.s3PutObject b ("findings/" ++ eventFindingId event ++ ".json")
              (Event.dumps event) "application/json"]
          rw [h1]
          rfl
        · rw [if_pos hne]
          cases hec2 : beh.ec2Fails with
          | true => rfl
          | false =>
            simp only [Bool.false_eq_true, if_false]
            obtain ⟨extra, h1, _, _⟩ := triageFromSfn_trace env beh event
              (eventFindingId event) (eventSeverity event) (eventResource event)
              [Call.s3PutObject b ("findings/" ++ eventFindingId event ++ ".json")
                (Event.dumps event) "application/json",
               Call.ec2CreateTags [iid]
                [("GuardDutyFinding", eventFindingId event), ("Quarantined", "Pending")]]
            rw [h1]
            rfl
    · simp only [hrt, if_false]
      obtain ⟨extra, h1, _, _⟩ := triageFromSfn_trace env beh event
        (eventFindingId event) (eventSeverity event) (eventResource event)
        [Call.s3PutObject b ("findings/" ++ eventFindingId event ++ ".json")
          (Event.dumps event) "application/json"]
      rw [h1]
      rfl

lemma lambda_handler_s3ok (env : Env) (beh : Beh) (event : Event) (b : String)
    (hb : env.EVIDENCE_BUCKET = some b) (hs3 : beh.s3Fails = false)
    (hec2 : beh.ec2Fails = false) :
    lambda_handler env beh event =
      triageFromSfn env beh event (eventFindingId event) (eventSeverity event)
        (eventResource event)
        (Call.s3PutObject b ("findings/" ++ eventFindingId event ++ ".json")
          (Event.dumps event) "application/json" :: tagCallsOf event) := by
  unfold lambda_handler tagCallsOf
  rw [hb]
  simp only [hs3, Bool.false_eq_true, if_false]
  by_cases hrt : (eventResource event).resourceType = some "Instance"
  · simp only [hrt, if_true]
    cases hiid : eventInstanceId event with
    | none => rfl
    | some iid => by_cases hne : iid = "" <;> simp [hne, hec2]
  · simp only [hrt, if_false]

lemma triageFromSfn_err_noArn (env : Env) (beh : Beh) (event : Event)
    (fid : String) (sev : Int) (r : Resource) (calls : List Call)
    (harn : env.STATE_MACHINE_ARN = none) :
    triageFromSfn env beh event fid sev r calls =
      (calls, .error (.keyError "STATE_MACHINE_ARN")) := by
  unfold triageFromSfn
  rw [harn]

lemma triageFromSfn_err_noTopic (env : Env) (beh : Beh) (event : Event)
    (fid : String) (sev : Int) (r : Resource) (calls : List Call) (arn : String)
    (harn : env.STATE_MACHINE_ARN = some arn) (hsfn : beh.sfnFails = false)
    (htop : env.SNS_TOPIC_ARN = none) :
    triageFromSfn env beh event fid sev r calls =
      (calls ++ [Call.sfnStartExecution arn ("IR-" ++ replaceSlashes fid) (Event.dumps event)],
       .error (.keyError "SNS_TOPIC_ARN")) := by
  unfold triageFromSfn
  rw [harn]
  simp [hsfn, htop]

/-- Fidelity of the truthiness guard `if instance_id:` (triage.py line 40):
an Instance resource whose instanceId is present but the empty string is
skipped, so a healthy run attempts no tagging call. -/
lemma lambda_handler_skips_empty_instance_id :
    ((lambda_handler envW Beh.ok
      ⟨some ⟨some "f-4", some 2, some ⟨some "Instance", some ⟨some ""⟩⟩⟩⟩).1).filter
        isTagCall = [] := rfl

/-- C1: if the evidence write raises, no tagging call, no workflow-start call
and no notification call is attempted, and the client error is re-raised to
the caller instead of a success payload. -/
theorem s3_failure_aborts_later_steps (env : Env) (beh : Beh) (event : Event) (b : String)
    (hb : env.EVIDENCE_BUCKET = some b) (hfail : beh.s3Fails = true) :
    ((lambda_handler env beh event).1).filter isTagCall = [] ∧
    ((lambda_handler env beh event).1).filter isSfnCall = [] ∧
    ((lambda_handler env beh event).1).filter isSnsCall = [] ∧
    (lambda_handler env beh event).2 =
      Except.error (Err.clientError (Call.s3PutObject b
        ("findings/" ++ eventFindingId event ++ ".json")
        (Event.dumps event) "application/json")) := by
  unfold lambda_handler
  rw [hb]
  simp [hfail, isTagCall, isSfnCall, isSnsCall, List.filter]

theorem s3_failure_aborts_later_steps_witness :
    ((lambda_handler envW ⟨true, false, false, false⟩ evInst).1).filter isTagCall = [] ∧
    ((lambda_handler envW ⟨true, false, false, false⟩ evInst).1).filter isSfnCall = [] ∧
    ((lambda_handler envW ⟨true, false, false, false⟩ evInst).1).filter isSnsCall = [] ∧
    (lambda_handler envW ⟨true, false, false, false⟩ evInst).2 =
      Except.error (Err.clientError (Call.s3PutObject "evidence-bkt"
        ("findings/" ++ eventFindingId evInst ++ ".json")
        (Event.dumps evInst) "application/json")) :=
  s3_failure_aborts_later_steps envW ⟨true, false, false, false⟩ evInst "evidence-bkt" rfl rfl

/-- C2: when the evidence write succeeds, a resource of type "Instance" whose
nested instance details carry a present instance id (non-empty, since the
guard `if instance_id:` at triage.py line 40 is Python truthiness) receives
exactly one tagging call with the two tag entries GuardDutyFinding and
Quarantined, and a resource of any other type receives zero tagging calls,
the run succeeding when environment and services are healthy. -/
theorem tagging_call_characterization (env : Env) (beh : Beh) (event : Event) (b iid : String)
    (hb : env.EVIDENCE_BUCKET = some b) (hs3 : beh.s3Fails = false) :
    ((eventResource event).resourceType = some "Instance" →
      eventInstanceId event = some iid → iid ≠ "" →
      ((lambda_handler env beh event).1).filter isTagCall =
        [Call.ec2CreateTags [iid]
          [("GuardDutyFinding", eventFindingId event), ("Quarantined", "Pending")]])
    ∧ ((eventResource event).resourceType ≠ some "Instance" →
      ((lambda_handler env beh event).1).filter isTagCall = [] ∧
      (∀ arn topic, env.STATE_MACHINE_ARN = some arn → env.SNS_TOPIC_ARN = some topic →
        beh = Beh.ok →
        ∃ r : Response, (lambda_handler env beh event).2 = Except.ok r)) := by
  constructor
  · intro hrt hiid hne
    rw [lambda_handler_tagFilter env beh event b hb hs3]
    unfold tagCallsOf
    simp [hrt, hiid, hne]
  · intro hrt
    refine ⟨lambda_handler_tagFilter_nil_of_not_instance env beh event hrt, ?_⟩
    intro arn topic ha ht hbeh
    subst hbeh
    rw [lambda_handler_ok_run env event b arn topic hb ha ht]
    exact ⟨_, rfl⟩

theorem tagging_call_characterization_witness :
    ((lambda_handler envW Beh.ok evInst).1).filter isTagCall =
      [Call.ec2CreateTags ["i-0abc"]
        [("GuardDutyFinding", eventFindingId evInst), ("Quarantined", "Pending")]] :=
  (tagging_call_characterization envW Beh.ok evInst "evidence-bkt" "i-0abc" rfl rfl).1
    rfl rfl (by decide)

/-- C3 counterexample: an event whose resource type is "Instance" but with no
instance id present receives zero tagging calls even on a fully healthy run,
so tagging is not applied if and only if the resource type is "Instance". -/
theorem tagging_iff_instance_counterexample :
    (eventResource evNoIid).resourceType = some "Instance" ∧
    envW = ⟨some "evidence-bkt", some "arn-sm", some "arn-topic"⟩ ∧
    ((lambda_handler envW Beh.ok evNoIid).1).filter isTagCall = [] :=
  ⟨rfl, rfl, rfl⟩

/-- C3 amended: when the evidence write succeeds, the two-entry tag set is
applied if and only if the resource type equals "Instance" and the nested
instance details carry an instance id that is present and non-empty, matching
the truthiness guard `if instance_id:` at triage.py line 40. -/
theorem tagging_iff_instance_and_id (env : Env) (beh : Beh) (event : Event) (b : String)
    (hb : env.EVIDENCE_BUCKET = some b) (hs3 : beh.s3Fails = false) :
    ((lambda_handler env beh event).1).filter isTagCall ≠ [] ↔
      ((eventResource event).resourceType = some "Instance" ∧
        ∃ iid, eventInstanceId event = some iid ∧ iid ≠ "") := by
  rw [lambda_handler_tagFilter env beh event b hb hs3]
  unfold tagCallsOf
  by_cases hrt : (eventResource event).resourceType = some "Instance"
  · simp only [hrt, if_true]
    cases hiid : eventInstanceId event with
    | none => simp
    | some iid => by_cases hne : iid = "" <;> simp [hne]
  · simp [hrt]

theorem tagging_iff_instance_and_id_witness :
    ((lambda_handler envW Beh.ok evInst).1).filter isTagCall ≠ [] ↔
      ((eventResource evInst).resourceType = some "Instance" ∧
        ∃ iid, eventInstanceId evInst = some iid ∧ iid ≠ "") :=
  tagging_iff_instance_and_id envW Beh.ok evInst "evidence-bkt" rfl rfl

/-- C4 counterexample: with the evidence bucket configured but the workflow
identifier absent from the environment, a healthy run performs the evidence
write and the tagging call before failing on the missing configuration, so
the three configuration values are not all read before any side effect. -/
theorem env_read_upfront_counterexample :
    envMissingArn.EVIDENCE_BUCKET = some "evidence-bkt" ∧
    envMissingArn.STATE_MACHINE_ARN = none ∧
    (lambda_handler envMissingArn Beh.ok evInst).2 =
      Except.error (Err.keyError "STATE_MACHINE_ARN") ∧
    ((lambda_handler envMissingArn Beh.ok evInst).1).filter isS3Call ≠ [] ∧
    ((lambda_handler envMissingArn Beh.ok evInst).1).filter isTagCall ≠ [] := by
  refine ⟨rfl, rfl, rfl, ?_, ?_⟩ <;> decide

/-- C4 amended: the evidence-bucket name is read before any side effect, so if
it is absent the invocation fails with no calls attempted; the workflow
identifier is read only after the evidence write and the tagging step, and the
notification-channel identifier only after the workflow start, so if one of
those two is absent the invocation fails after the earlier side effects have
already been performed. -/
theorem env_read_order (env : Env) (beh : Beh) (event : Event) :
    (env.EVIDENCE_BUCKET = none →
      lambda_handler env beh event = ([], .error (.keyError "EVIDENCE_BUCKET")))
    ∧ (∀ b, env.EVIDENCE_BUCKET = some b → beh.s3Fails = false → beh.ec2Fails = false →
      env.STATE_MACHINE_ARN = none →
      (lambda_handler env beh event).2 = Except.error (Err.keyError "STATE_MACHINE_ARN") ∧
      ((lambda_handler env beh event).1).filter isS3Call ≠ [])
    ∧ (∀ b arn, env.EVIDENCE_BUCKET = some b → env.STATE_MACHINE_ARN = some arn →
      beh.s3Fails = false → beh.ec2Fails = false → beh.sfnFails = false →
      env.SNS_TOPIC_ARN = none →
      (lambda_handler env beh event).2 = Except.error (Err.keyError "SNS_TOPIC_ARN") ∧
      ((lambda_handler env beh event).1).filter isSfnCall ≠ []) := by
  refine ⟨?_, ?_, ?_⟩
  · intro hb
    unfold lambda_handler
    rw [hb]
  · intro b hb hs3 hec2 harn
    rw [lambda_handler_s3ok env beh event b hb hs3 hec2,
      triageFromSfn_err_noArn env beh event (eventFindingId event) (eventSeverity event)
        (eventResource event) _ harn]
    exact ⟨rfl, by simp [isS3Call, List.filter]⟩
  · intro b arn hb harn hs3 hec2 hsfn htop
    rw [lambda_handler_s3ok env beh event b hb hs3 hec2,
      triageFromSfn_err_noTopic env beh event (eventFindingId event) (eventSeverity event)
        (eventResource event) _ arn harn hsfn htop]
    refine ⟨rfl, ?_⟩
    simp [List.filter_append, tagCallsOf_filter_isSfnCall, isSfnCall, List.filter]

theorem env_read_order_witness :
    (lambda_handler envMissingArn Beh.ok evNoIid).2 =
      Except.error (Err.keyError "STATE_MACHINE_ARN") ∧
    ((lambda_handler envMissingArn Beh.ok evNoIid).1).filter isS3Call ≠ [] :=
  (env_read_order envMissingArn Beh.ok evNoIid).2.1 "evidence-bkt" rfl rfl rfl rfl

/-- C5: on a healthy run the workflow-start call is exactly one, uses the
execution name "IR-" followed by the finding id with every slash replaced by a
dash, and passes the full serialized inbound event as the execution input. -/
theorem workflow_execution_name_and_input (env : Env) (event : Event) (b arn topic : String)
    (hb : env.EVIDENCE_BUCKET = some b)
    (ha : env.STATE_MACHINE_ARN = some arn)
    (ht : env.SNS_TOPIC_ARN = some topic) :
    ((lambda_handler env Beh.ok event).1).filter isSfnCall =
      [Call.sfnStartExecution arn ("IR-" ++ replaceSlashes (eventFindingId event))
        (Event.dumps event)] := by
  rw [lambda_handler_ok_run env event b arn topic hb ha ht]
  simp [List.filter_append, tagCallsOf_filter_isSfnCall, isSfnCall, List.filter]

theorem workflow_execution_name_and_input_witness :
    ((lambda_handler envW Beh.ok evSlash).1).filter isSfnCall =
      [Call.sfnStartExecution "arn-sm" "IR-abc-123" (Event.dumps evSlash)] :=
  workflow_execution_name_and_input envW evSlash "evidence-bkt" "arn-sm" "arn-topic" rfl rfl rfl

/-- C6: on a healthy run exactly one notification is published; its body is the
serialization of the message record with exactly the four fields finding_id,
severity, resource_type and action, action being the fixed string, and its
subject is "GuardDuty Finding Triage: " followed by the finding id. -/
theorem notification_message_fields_and_subject (env : Env) (event : Event)
    (b arn topic : String)
    (hb : env.EVIDENCE_BUCKET = some b)
    (ha : env.STATE_MACHINE_ARN = some arn)
    (ht : env.SNS_TOPIC_ARN = some topic) :
    ((lambda_handler env Beh.ok event).1).filter isSnsCall =
      [Call.snsPublish topic
        (Message.dumps ⟨eventFindingId event, eventSeverity event,
          (eventResource event).resourceType, "Triage completed, remediation initiated"⟩)
        ("GuardDuty Finding Triage: " ++ eventFindingId event)] := by
  rw [lambda_handler_ok_run env event b arn topic hb ha ht]
  simp [List.filter_append, tagCallsOf_filter_isSnsCall, isSnsCall, List.filter]

theorem notification_message_fields_and_subject_witness :
    ((lambda_handler envW Beh.ok evInst).1).filter isSnsCall =
      [Call.snsPublish "arn-topic"
        (Message.dumps ⟨"f-1", 8, some "Instance", "Triage completed, remediation initiated"⟩)
        "GuardDuty Finding Triage: f-1"] :=
  notification_message_fields_and_subject envW evInst "evidence-bkt" "arn-sm" "arn-topic"
    rfl rfl rfl

/-- C7: when every external call succeeds, the handler returns exactly the
payload with statusCode 200 and body the serialization of the success message
together with the extracted finding id. -/
theorem success_payload (env : Env) (event : Event) (b arn topic : String)
    (hb : env.EVIDENCE_BUCKET = some b)
    (ha : env.STATE_MACHINE_ARN = some arn)
    (ht : env.SNS_TOPIC_ARN = some topic) :
    (lambda_handler env Beh.ok event).2 =
      Except.ok ⟨200, objDumps [("message", jstr "Triage completed successfully"),
                                ("finding_id", jstr (eventFindingId event))]⟩ := by
  rw [lambda_handler_ok_run env event b arn topic hb ha ht]

theorem success_payload_witness :
    (lambda_handler envW Beh.ok evInst).2 =
      Except.ok ⟨200, objDumps [("message", jstr "Triage completed successfully"),
                                ("finding_id", jstr "f-1")]⟩ :=
  success_payload envW evInst "evidence-bkt" "arn-sm" "arn-topic" rfl rfl rfl

/-- C8: an absent detail.id makes the extracted finding id "unknown" and the
evidence key "findings/unknown.json"; an absent detail.severity makes the
severity 0; an absent resource descriptor degrades to the empty resource, so
no tagging call occurs and a healthy run still returns the success payload. -/
theorem missing_field_defaults (env : Env) (beh : Beh) (event : Event) (b arn topic : String)
    (hb : env.EVIDENCE_BUCKET = some b)
    (ha : env.STATE_MACHINE_ARN = some arn)
    (ht : env.SNS_TOPIC_ARN = some topic) :
    ((eventDetail event).id = none →
      eventFindingId event = "unknown" ∧
      ((lambda_handler env beh event).1).head? =
        some (Call.s3PutObject b "findings/unknown.json" (Event.dumps event)
          "application/json"))
    ∧ ((eventDetail event).severity = none → eventSeverity event = 0)
    ∧ ((eventDetail event).resource = none →
      ((lambda_handler env beh event).1).filter isTagCall = [] ∧
      (lambda_handler env Beh.ok event).2 =
        Except.ok ⟨200, objDumps [("message", jstr "Triage completed successfully"),
                                  ("finding_id", jstr (eventFindingId event))]⟩) := by
  refine ⟨?_, ?_, ?_⟩
  · intro hid
    have hfid : eventFindingId event = "unknown" := by
      unfold eventFindingId
      rw [hid]
      rfl
    refine ⟨hfid, ?_⟩
    rw [lambda_handler_head env beh event b hb, hfid]
    rfl
  · intro hsev
    unfold eventSeverity
    rw [hsev]
    rfl
  · intro hres
    have hrt : (eventResource event).resourceType ≠ some "Instance" := by
      unfold eventResource
      rw [hres]
      simp [Resource.empty]
    refine ⟨lambda_handler_tagFilter_nil_of_not_instance env beh event hrt, ?_⟩
    rw [lambda_handler_ok_run env event b arn topic hb ha ht]

theorem missing_field_defaults_witness :
    eventFindingId evEmpty = "unknown" ∧
    ((lambda_handler envW Beh.ok evEmpty).1).head? =
      some (Call.s3PutObject "evidence-bkt" "findings/unknown.json" (Event.dumps evEmpty)
        "application/json") ∧
    eventSeverity evEmpty = 0 ∧
    ((lambda_handler envW Beh.ok evEmpty).1).filter isTagCall = [] := by
  have h := missing_field_defaults envW Beh.ok evEmpty "evidence-bkt" "arn-sm" "arn-topic"
    rfl rfl rfl
  exact ⟨(h.1 rfl).1, (h.1 rfl).2, h.2.1 rfl, (h.2.2 rfl).1⟩

/-- C9: for an event with a present detail.id, the evidence write is the first
outbound call and uses the key "findings/" ++ id ++ ".json", the serialization
of the full inbound event as the body, and content type application/json. -/
theorem evidence_write_key_body_content (env : Env) (beh : Beh) (event : Event)
    (b fid : String)
    (hb : env.EVIDENCE_BUCKET = some b) (hid : (eventDetail event).id = some fid) :
    ((lambda_handler env beh event).1).head? =
      some (Call.s3PutObject b ("findings/" ++ fid ++ ".json") (Event.dumps event)
        "application/json") := by
  have hfid : eventFindingId event = fid := by
    unfold eventFindingId
    rw [hid]
    rfl
  rw [lambda_handler_head env beh event b hb, hfid]

theorem evidence_write_key_body_content_witness :
    ((lambda_handler envW Beh.ok evInst).1).head? =
      some (Call.s3PutObject "evidence-bkt" "findings/f-1.json" (Event.dumps evInst)
        "application/json") :=
  evidence_write_key_body_content envW Beh.ok evInst "evidence-bkt" "f-1" rfl rfl

/-- C10: for a finding id containing slashes, the evidence key embeds the id
verbatim, slashes included, while the workflow execution name is the only
place where slashes are replaced by dashes. -/
theorem evidence_key_verbatim_name_sanitized (env : Env) (event : Event)
    (b arn topic fid : String)
    (hb : env.EVIDENCE_BUCKET = some b)
    (ha : env.STATE_MACHINE_ARN = some arn)
    (ht : env.SNS_TOPIC_ARN = some topic)
    (hid : (eventDetail event).id = some fid) :
    ((lambda_handler env Beh.ok event).1).head? =
      some (Call.s3PutObject b ("findings/" ++ fid ++ ".json") (Event.dumps event)
        "application/json") ∧
    ((lambda_handler env Beh.ok event).1).filter isSfnCall =
      [Call.sfnStartExecution arn ("IR-" ++ replaceSlashes fid) (Event.dumps event)] := by
  have hfid : eventFindingId event = fid := by
    unfold eventFindingId
    rw [hid]
    rfl
  constructor
  · rw [lambda_handler_head env Beh.ok event b hb, hfid]
  · rw [lambda_handler_ok_run env event b arn topic hb ha ht]
    simp [List.filter_append, tagCallsOf_filter_isSfnCall, isSfnCall, List.filter, hfid]

theorem evidence_key_verbatim_name_sanitized_witness :
    ((lambda_handler envW Beh.ok evSlash).1).head? =
      some (Call.s3PutObject "evidence-bkt" "findings/abc/123.json" (Event.dumps evSlash)
        "application/json") ∧
    ((lambda_handler envW Beh.ok evSlash).1).filter isSfnCall =
      [Call.sfnStartExecution "arn-sm" "IR-abc-123" (Event.dumps evSlash)] :=
  evidence_key_verbatim_name_sanitized envW evSlash "evidence-bkt" "arn-sm" "arn-topic"
    "abc/123" rfl rfl rfl rfl
